import Mathlib

/-!
Verification of the `graceful` package of hay-kot/httpkit: the plugin
lifecycle orchestrator (`Runner`).

The Go source (graceful/runner.go, graceful/runner_options.go,
graceful/plugin.go) is shallowly embedded below:

* pure configuration code (`runnerOpts`, the `With*` option functions,
  `NewRunner`) becomes pure Lean functions;
* `Runner.Shutdown`, which executes `close(svr.shutdown)` on a channel
  created once in `NewRunner`, becomes an `Except`-valued state update:
  closing an already-closed channel panics in Go, which the embedding
  surfaces as an explicit `GoPanic` value;
* one call of the concurrent `Runner.Start` becomes a function of the
  runner state, an environment (when the parent context is cancelled,
  when a watched OS signal arrives, when `Shutdown` is called during the
  run) and a `Schedule` recording the outcomes of the genuine races in
  the code (the `plugErr` check in the launch loop, whether a failing
  worker's non-blocking send on the unbuffered `pluginErrCh` is received,
  the choice of the outer `select`, and the drain-phase tie).  A
  `validSchedule` predicate restricts schedules to the interleavings the
  Go memory/channel semantics allows.  Time is abstracted to `Nat` ticks
  with observation of events idealised as immediate.
-/

/-- Go `error` values that occur in the package: the two sentinel errors of
runner.go, `context.DeadlineExceeded`, and arbitrary caller-made errors
(`errors.New(msg)`). -/
inductive GoErr : Type
  | runnerNotStarted
  | runnerAlreadyStarted
  | deadlineExceeded
  | custom (msg : String)
deriving DecidableEq, Repr

/-- A Go runtime panic relevant here: `close` of an already-closed channel. -/
inductive GoPanic : Type
  | closeOfClosedChannel
deriving DecidableEq, Repr

/-- OS signals as used in runner_options.go (`os.Interrupt`, `syscall.SIGTERM`,
anything else a caller may pass to `WithSignals`). -/
inductive OsSignal : Type
  | interrupt
  | sigterm
  | other (n : Nat)
deriving DecidableEq, Repr

/-- The diagnostic sink `func(...any)`.  Its only observable effect is the
text it emits, so it is embedded as the list of lines produced from its
arguments; the no-op default emits nothing. -/
def PrintFn : Type := List String → List String

/-- The default `println` of `NewRunner`: `func(v ...any) {}` — a no-op. -/
def noopPrintln : PrintFn := fun _ => []

/-- runner_options.go: `type runnerOpts struct { signals […]; timeout […];
println […] }`.  `timeout` is in abstract time units (seconds in Go). -/
structure runnerOpts : Type where
  signals : List OsSignal
  timeout : Nat
  println : PrintFn

/-- The three option constructors of runner_options.go.  Each Go
`RunnerOptFunc` produced by the package is one of these closures. -/
inductive RunnerOpt : Type
  | withSignals (signals : List OsSignal)
  | withTimeout (timeout : Nat)
  | withPrintln (fn : PrintFn)

/-- The body of the closure each option constructor returns: `WithSignals`
sets `o.signals`, `WithTimeout` sets `o.timeout`, `WithPrintln` sets
`o.println`. -/
def RunnerOpt.apply : RunnerOpt → runnerOpts → runnerOpts
  | .withSignals s, o => { o with signals := s }
  | .withTimeout t, o => { o with timeout := t }
  | .withPrintln f, o => { o with println := f }

/-- The defaults installed at the top of `NewRunner`: signals
`os.Interrupt, syscall.SIGTERM`, timeout `5 * time.Second` (5 units),
`println` a no-op. -/
def defaultRunnerOpts : runnerOpts :=
  { signals := [.interrupt, .sigterm]
  , timeout := 5
  , println := noopPrintln }

/-- `for _, opt := range opts { opt(o) }` of `NewRunner`. -/
def applyRunnerOpts (opts : List RunnerOpt) : runnerOpts :=
  opts.foldl (fun o f => f.apply o) defaultRunnerOpts

/-- Behaviour of a plugin's blocking `Start(ctx)` during one run, as
exercised by the package's tests and spec scenarios: fail immediately with
a non-nil error; block until the scope is cancelled and return nil `delay`
units later; or never return. -/
inductive PluginBehavior : Type
  | failImmediately (e : GoErr)
  | stopOnCancel (delay : Nat)
  | neverReturn
deriving DecidableEq, Repr

/-- Whether this behaviour returns a non-nil error without waiting for
cancellation (the only way `plugErr` is ever set in the launch loop's
workers). -/
def PluginBehavior.isFail : PluginBehavior → Bool
  | .failImmediately _ => true
  | _ => false

/-- The error of a failing behaviour (nil otherwise). -/
def PluginBehavior.failErr : PluginBehavior → Option GoErr
  | .failImmediately e => some e
  | _ => none

/-- runner.go: `type Runner struct { started bool; plugins []Plugin;
shutdown chan struct{}; opts *runnerOpts }`.  The one-shot `shutdown`
channel is embedded as the flag `shutdownClosed`. -/
structure Runner : Type where
  started : Bool
  plugins : List PluginBehavior
  shutdownClosed : Bool
  opts : runnerOpts

/-- `NewRunner`: build defaults, apply the options in supplied order, and
return a runner with a fresh (open) shutdown channel and no plugins. -/
def NewRunner (opts : List RunnerOpt) : Runner :=
  { started := false
  , plugins := []
  , shutdownClosed := false
  , opts := applyRunnerOpts opts }

/-- `func (*Runner) Name() string { return "runner" }` — the receiver is
ignored. -/
def Runner.Name (_ : Runner) : String := "runner"

/-- `AddPlugin(p ...Plugin)`: `svr.plugins = append(svr.plugins, p...)`. -/
def Runner.AddPlugin (svr : Runner) (p : List PluginBehavior) : Runner :=
  { svr with plugins := svr.plugins ++ p }

/-- `func (svr *Runner) Shutdown() { close(svr.shutdown) }`.  Go's `close`
panics when the channel is already closed, so a second call does not
return normally: the embedding returns the panic explicitly. -/
def Runner.Shutdown (svr : Runner) : Except GoPanic Runner :=
  if svr.shutdownClosed then .error .closeOfClosedChannel
  else .ok { svr with shutdownClosed := true }

/-- Minimum of two optional times, `none` meaning "never". -/
def optMin : Option Nat → Option Nat → Option Nat
  | none, b => b
  | a, none => a
  | some a, some b => some (min a b)

/-- The environment of one `Start` call: when (if ever) the caller-supplied
parent context is cancelled, when (if ever) a watched termination signal
arrives (the `signal.NotifyContext` sources), and when (if ever)
`Shutdown` is called during the run. -/
structure StartEnv : Type where
  parentCancel : Option Nat
  signalArrival : Option Nat
  shutdownCall : Option Nat
deriving DecidableEq, Repr

/-- When the child context of `Start` is cancelled: the earliest of parent
cancellation, signal arrival (both via `signal.NotifyContext`), and the
shutdown watcher goroutine `go func() { <-svr.shutdown; cancel() }` — which
fires immediately (time 0) when the shutdown channel was already closed
before `Start` was called. -/
def childCancelTime (svr : Runner) (env : StartEnv) : Option Nat :=
  let shut := if svr.shutdownClosed then some 0 else env.shutdownCall
  optMin (optMin env.parentCancel env.signalArrival) shut

/-- Resolution of the races in one `Start` call:

* `breakAt = some i`: the launch loop's `if plugErr != nil { break }` check
  fired just before launching plugin `i`, because some already-launched
  worker had failed and its racy write to `plugErr` was visible; plugins
  `i, i+1, …` are never started.  `none`: the loop launched every plugin.
* `errReported = some j`: worker `j`'s non-blocking send on the unbuffered
  `pluginErrCh` was received by the outer `select`.  `none`: every failing
  worker's send hit the `default` branch (the run's main goroutine was not
  yet blocked receiving), so no error was ever reported.
* `selectPicksErr`: which case the outer `select` commits to when both the
  cancelled context and a reported error are ready.
* `drainTieNil`: which case the drain `select` commits to when `wgChannel`
  closes exactly when the grace timer fires. -/
structure Schedule : Type where
  breakAt : Option Nat
  errReported : Option Nat
  selectPicksErr : Bool
  drainTieNil : Bool
deriving DecidableEq, Repr

/-- Index where the launch loop stopped: the number of workers launched. -/
def cutIndex (n : Nat) (s : Schedule) : Nat :=
  match s.breakAt with
  | none => n
  | some i => i

/-- Whether the plugin at index `j` fails immediately. -/
def failsAt (plugins : List PluginBehavior) (j : Nat) : Bool :=
  (plugins[j]?.map PluginBehavior.isFail).getD false

/-- A schedule the Go semantics can actually produce for this plugin list:
the launch loop can only observe `plugErr ≠ nil` at index `i` if some
already-launched worker `j < i` fails immediately (so `0 < i < n`), and
only a launched, immediately-failing worker's error can be received. -/
def validSchedule (plugins : List PluginBehavior) (s : Schedule) : Bool :=
  (match s.breakAt with
   | none => true
   | some i =>
       decide (0 < i) && decide (i < plugins.length) &&
         (List.range i).any (fun j => failsAt plugins j)) &&
  (match s.errReported with
   | none => true
   | some j =>
       decide (j < cutIndex plugins.length s) && failsAt plugins j)

/-- When a launched worker returns (calls `wg.Done()`): an immediately
failing plugin returns at once; a cooperative plugin returns `delay` units
after the shared context is cancelled; a stuck plugin never returns. -/
def finishTime (cancel : Option Nat) : PluginBehavior → Option Nat
  | .failImmediately _ => some 0
  | .stopOnCancel delay => cancel.map (· + delay)
  | .neverReturn => none

/-- Combine "all workers so far done at `acc`" with one more worker's
finish time: done when both are, at the later of the two. -/
def joinFinish (acc t : Option Nat) : Option Nat :=
  match acc, t with
  | some m, some u => some (max m u)
  | _, _ => none

/-- When all the given workers have returned, if ever (the max of their
finish times; `none` if any never finishes). -/
def allFinishTime (cancel : Option Nat) (plugins : List PluginBehavior) :
    Option Nat :=
  plugins.foldl (fun acc b => joinFinish acc (finishTime cancel b)) (some 0)

/-- When `wgChannel` is closed, if ever.  `wg.Add(len(svr.plugins))` counts
every registered plugin, but a worker is launched only for plugins before
the break index, so if the launch loop broke early the skipped plugins
never call `wg.Done()` and `wgChannel` never closes. -/
def wgCloseTime (svr : Runner) (env : StartEnv) (s : Schedule) : Option Nat :=
  if s.breakAt.isSome then none
  else allFinishTime (childCancelTime svr env) svr.plugins

/-- The result of one `Start` call: a Go return (`error`-or-nil, with the
time of return) — or no return at all, when the outer `select` has no case
that will ever become ready. -/
inductive Outcome : Type
  | ret (err : Option GoErr) (t : Nat)
  | hang
deriving DecidableEq, Repr

/-- The drain phase (the `case <-ctx.Done()` branch): start a one-shot
timer of `opts.timeout`, then `select` between `wgChannel` (return nil)
and the timer (return `context.DeadlineExceeded`). -/
def drainResult (timeout cancelAt : Nat) (wgClose : Option Nat)
    (tieNil : Bool) : Outcome :=
  match wgClose with
  | some d =>
      if d < cancelAt + timeout then .ret none (max cancelAt d)
      else if d = cancelAt + timeout then
        if tieNil then .ret none d
        else .ret (some .deadlineExceeded) (cancelAt + timeout)
      else .ret (some .deadlineExceeded) (cancelAt + timeout)
  | none => .ret (some .deadlineExceeded) (cancelAt + timeout)

/-- Report of one `Start` call: its outcome, how many times each registered
plugin's `Start` was invoked (index-aligned with the registry), whether
the outer `select` took the context-cancelled (drain) branch, and the
runner state after the call. -/
structure RunReport : Type where
  outcome : Outcome
  startCalls : List Nat
  drained : Bool
  post : Runner

/-- The outer `select` of `Start` (lines 162–179 of runner.go) and what it
returns, together with whether the `<-ctx.Done()` (drain) case was taken:

* neither the context nor an error report ever becomes ready: the
  `select` blocks forever;
* only an error report: `return err`, the reported worker's error value
  unchanged;
* only the cancelled context: the drain phase decides the result;
* both ready: the `select` commits to either case, per the schedule. -/
def selectOutcome (svr : Runner) (env : StartEnv) (s : Schedule) :
    Outcome × Bool :=
  match childCancelTime svr env, s.errReported with
  | none, none => (.hang, false)
  | none, some j =>
      (.ret (svr.plugins[j]?.bind PluginBehavior.failErr) 0, false)
  | some c, none =>
      (drainResult svr.opts.timeout c (wgCloseTime svr env s) s.drainTieNil,
        true)
  | some c, some j =>
      if s.selectPicksErr then
        (.ret (svr.plugins[j]?.bind PluginBehavior.failErr) 0, false)
      else
        (drainResult svr.opts.timeout c (wgCloseTime svr env s) s.drainTieNil,
          true)

/-- One call of `Runner.Start`, lines 104–180 of runner.go:

* guard: `if svr.started { return ErrRunnerAlreadyStarted }` — no workers;
* launch loop with the `plugErr` break; each launched worker calls the
  plugin's `Start` exactly once, so plugin `i` gets one start call when
  `i` is below the break index and none otherwise;
* shutdown watcher;
* `svr.started = true` and the deferred reset, which runs on every return
  path after the guard (and never runs if the call never returns);
* the outer `select` (see `selectOutcome`). -/
def Runner.startRun (svr : Runner) (env : StartEnv) (s : Schedule) :
    RunReport :=
  if svr.started then
    { outcome := .ret (some .runnerAlreadyStarted) 0
    , startCalls := List.replicate svr.plugins.length 0
    , drained := false
    , post := svr }
  else
    { outcome := (selectOutcome svr env s).1
    , startCalls :=
        (List.range svr.plugins.length).map
          (fun i => if i < cutIndex svr.plugins.length s then 1 else 0)
    , drained := (selectOutcome svr env s).2
    , post :=
        match (selectOutcome svr env s).1 with
        | .hang => { svr with started := true }
        | .ret _ _ => { svr with started := false } }

/-- plugin.go's `Plugin` interface: a name used for diagnostics, and a
blocking start operation of a cancellable scope returning failure-or-nil.
A scope is embedded as the time at which it is cancelled, if ever; the
result of a blocking start is an `Outcome`. -/
structure GoPlugin : Type where
  Name : String
  Start : Option Nat → Outcome

/-- plugin.go's `PluginFunc` adapter: wraps a bare name and start function
into the interface. -/
def PluginFunc (name : String) (start : Option Nat → Outcome) : GoPlugin :=
  { Name := name, Start := start }

/-- A `Runner` registered as a plugin of another runner: its `Name` method
and its `Start` method run with the given in-run environment and schedule,
the registering runner's child scope being the parent scope of the inner
run. -/
def Runner.asPlugin (svr : Runner) (env : StartEnv) (s : Schedule) :
    GoPlugin :=
  { Name := Runner.Name svr
  , Start := fun ctx =>
      (Runner.startRun svr { env with parentCancel := ctx } s).outcome }

/-- No registered behaviour fails immediately. -/
def noFailures (plugins : List PluginBehavior) : Bool :=
  plugins.all (fun b => !b.isFail)

/-- The value-extraction functions of the three option constructors, used
to state which field a given option writes. -/
def timeoutOf : RunnerOpt → Option Nat
  | .withTimeout t => some t
  | _ => none

/-- Which signal list an option writes, if any. -/
def signalsOf : RunnerOpt → Option (List OsSignal)
  | .withSignals sg => some sg
  | _ => none

/-- Which diagnostic sink an option writes, if any. -/
def printlnOf : RunnerOpt → Option PrintFn
  | .withPrintln f => some f
  | _ => none

/-- The last value an option list writes to a field, if any. -/
def lastSet {α : Type} (f : RunnerOpt → Option α) (opts : List RunnerOpt) :
    Option α :=
  (opts.filterMap f).getLast?

/-- The runner of the repository's `Test_Runner_FailedStartup`: one plugin
whose start returns `errors.New("failed to start")` immediately. -/
def c1Runner : Runner :=
  (NewRunner [.withTimeout 3]).AddPlugin
    [.failImmediately (.custom "failed to start")]

/-- A runner with a first plugin that fails immediately and a second
cooperative plugin. -/
def c3Runner : Runner :=
  (NewRunner []).AddPlugin
    [.failImmediately (.custom "boom"), .stopOnCancel 0]

/-- A schedule in which plugin 0's worker fails and its racy `plugErr`
write is seen by the launch loop before plugin 1 is launched. -/
def c3BreakSched : Schedule :=
  { breakAt := some 1, errReported := some 0
  , selectPicksErr := true, drainTieNil := false }

/-- A runner whose single plugin never returns, with a 3-unit grace
timeout: cancelling its scope makes `Start` return via drain timeout. -/
def c5TimeoutRunner : Runner :=
  (NewRunner [.withTimeout 3]).AddPlugin [.neverReturn]

/-- A runner whose single plugin fails immediately with the error value
`context.DeadlineExceeded` itself. -/
def deadlineFailRunner : Runner :=
  (NewRunner [.withTimeout 3]).AddPlugin
    [.failImmediately .deadlineExceeded]

/-- A runner whose single plugin never returns, with a 2-unit grace
timeout. -/
def c9Runner : Runner :=
  (NewRunner [.withTimeout 2]).AddPlugin [.neverReturn]

/-- A runner with one cooperative plugin, used to exercise the
shutdown-before-start path. -/
def preShutdownRunner : Runner :=
  (NewRunner []).AddPlugin [.stopOnCancel 2]

theorem foldl_apply_field {α : Type} (get : runnerOpts → α)
    (f : RunnerOpt → Option α)
    (compat : ∀ r o, get (RunnerOpt.apply r o) = (f r).getD (get o))
    (opts : List RunnerOpt) (o : runnerOpts) :
    get (opts.foldl (fun a r => r.apply a) o) = (lastSet f opts).getD (get o) := by
  induction opts generalizing o with
  | nil => simp [lastSet]
  | cons x xs ih =>
      rw [List.foldl_cons, ih]
      unfold lastSet
      rw [List.filterMap_cons]
      cases hfx : f x with
      | none => rw [compat, hfx]; rfl
      | some v =>
          rw [compat, hfx, List.getLast?_cons]
          rfl

theorem failsAt_exists (plugins : List PluginBehavior) (j : Nat)
    (h : failsAt plugins j = true) : ∃ b ∈ plugins, b.isFail = true := by
  unfold failsAt at h
  cases hj : plugins[j]? with
  | none => rw [hj] at h; simp at h
  | some b =>
      rw [hj] at h
      exact ⟨b, List.getElem?_mem hj, by simpa using h⟩

theorem validSchedule_of_noFailures (plugins : List PluginBehavior)
    (s : Schedule) (hv : validSchedule plugins s = true)
    (hnf : noFailures plugins = true) :
    s.breakAt = none ∧ s.errReported = none := by
  have hmem : ∀ b ∈ plugins, b.isFail = false := by
    intro b hb
    unfold noFailures at hnf
    rw [List.all_eq_true] at hnf
    simpa using hnf b hb
  unfold validSchedule at hv
  rw [Bool.and_eq_true] at hv
  obtain ⟨h1, h2⟩ := hv
  have hb : s.breakAt = none := by
    cases hbr : s.breakAt with
    | none => rfl
    | some i =>
        rw [hbr] at h1
        simp only [Bool.and_eq_true] at h1
        obtain ⟨_, hany⟩ := h1
        rw [List.any_eq_true] at hany
        obtain ⟨j, _, hfj⟩ := hany
        obtain ⟨b, hbmem, hbf⟩ := failsAt_exists plugins j hfj
        rw [hmem b hbmem] at hbf
        exact absurd hbf (by simp)
  refine ⟨hb, ?_⟩
  cases her : s.errReported with
  | none => rfl
  | some j =>
      rw [her] at h2
      simp only [Bool.and_eq_true] at h2
      obtain ⟨_, hfj⟩ := h2
      obtain ⟨b, hbmem, hbf⟩ := failsAt_exists plugins j hfj
      rw [hmem b hbmem] at hbf
      exact absurd hbf (by simp)

theorem startRun_guard (svr : Runner) (env : StartEnv) (s : Schedule)
    (h : svr.started = true) :
    svr.startRun env s =
      { outcome := .ret (some .runnerAlreadyStarted) 0
      , startCalls := List.replicate svr.plugins.length 0
      , drained := false
      , post := svr } := by
  unfold Runner.startRun
  rw [h]
  rfl

theorem startRun_notStarted (svr : Runner) (env : StartEnv) (s : Schedule)
    (h : svr.started = false) :
    (svr.startRun env s).outcome = (selectOutcome svr env s).1 ∧
    (svr.startRun env s).drained = (selectOutcome svr env s).2 ∧
    (svr.startRun env s).startCalls =
      (List.range svr.plugins.length).map
        (fun i => if i < cutIndex svr.plugins.length s then 1 else 0) := by
  unfold Runner.startRun
  rw [h]
  exact ⟨rfl, rfl, rfl⟩

theorem selectOutcome_drain (svr : Runner) (env : StartEnv) (s : Schedule)
    (c : Nat) (hc : childCancelTime svr env = some c)
    (he : s.errReported = none) :
    selectOutcome svr env s =
      (drainResult svr.opts.timeout c (wgCloseTime svr env s) s.drainTieNil,
        true) := by
  unfold selectOutcome
  rw [hc, he]

theorem drainResult_some_err (T c : Nat) (w : Option Nat) (tie : Bool)
    (e : GoErr) (t : Nat) (h : drainResult T c w tie = .ret (some e) t) :
    e = .deadlineExceeded ∧ t = c + T := by
  cases w with
  | none =>
      simp only [drainResult] at h
      injection h with h1 h2
      exact ⟨(Option.some_inj.mp h1).symm, h2.symm⟩
  | some d =>
      simp only [drainResult] at h
      split_ifs at h with h1 h2 h3
      · injection h with ha _; exact absurd ha (by simp)
      · injection h with ha _; exact absurd ha (by simp)
      · injection h with ha hb
        exact ⟨(Option.some_inj.mp ha).symm, hb.symm⟩
      · injection h with ha hb
        exact ⟨(Option.some_inj.mp ha).symm, hb.symm⟩

theorem startRun_drained_inv (svr : Runner) (env : StartEnv) (s : Schedule)
    (hd : (svr.startRun env s).drained = true) :
    svr.started = false ∧ ∃ c, childCancelTime svr env = some c ∧
      (svr.startRun env s).outcome =
        drainResult svr.opts.timeout c (wgCloseTime svr env s)
          s.drainTieNil := by
  cases hst : svr.started with
  | true =>
      rw [startRun_guard svr env s hst] at hd
      exact absurd hd (by simp)
  | false =>
      obtain ⟨hout, hdr, _⟩ := startRun_notStarted svr env s hst
      rw [hdr] at hd
      refine ⟨rfl, ?_⟩
      unfold selectOutcome at hd hout
      cases hc : childCancelTime svr env with
      | none =>
          rw [hc] at hd
          cases her : s.errReported with
          | none => rw [her] at hd; exact absurd hd (by simp)
          | some j => rw [her] at hd; exact absurd hd (by simp)
      | some c =>
          rw [hc] at hd hout
          refine ⟨c, rfl, ?_⟩
          cases her : s.errReported with
          | none => rw [her] at hout; exact hout
          | some j =>
              rw [her] at hd hout
              cases hpick : s.selectPicksErr with
              | true => rw [hpick] at hd; exact absurd hd (by simp)
              | false => rw [hpick] at hout; exact hout

theorem foldl_joinFinish_lt (c T : Nat) (plugins : List PluginBehavior)
    (hp : ∀ b ∈ plugins, ∃ d, b = .stopOnCancel d ∧ d < T) :
    ∀ a, a < c + T →
      ∃ m, plugins.foldl (fun acc b => joinFinish acc (finishTime (some c) b))
          (some a) = some m ∧ m < c + T := by
  induction plugins with
  | nil => intro a ha; exact ⟨a, rfl, ha⟩
  | cons b bs ih =>
      intro a ha
      obtain ⟨d, hbd, hdT⟩ := hp b (List.mem_cons_self b bs)
      subst hbd
      rw [List.foldl_cons]
      have hstep :
          joinFinish (some a) (finishTime (some c) (.stopOnCancel d)) =
            some (max a (c + d)) := rfl
      rw [hstep]
      exact ih (fun x hx => hp x (List.mem_cons_of_mem _ hx)) (max a (c + d))
        (max_lt ha (Nat.add_lt_add_left hdT c))

theorem allFinishTime_stopOnCancel_lt (c T : Nat)
    (plugins : List PluginBehavior) (hT : 0 < T)
    (hp : ∀ b ∈ plugins, ∃ d, b = .stopOnCancel d ∧ d < T) :
    ∃ m, allFinishTime (some c) plugins = some m ∧ m < c + T := by
  unfold allFinishTime
  exact foldl_joinFinish_lt c T plugins hp 0 (by omega)

theorem drainResult_all_done (T c m : Nat) (tie : Bool) (hm : m < c + T) :
    drainResult T c (some m) tie = .ret none (max c m) := by
  simp only [drainResult]
  rw [if_pos hm]

theorem startRun_post_ret (svr : Runner) (env : StartEnv) (s : Schedule)
    (h : svr.started = false) (e : Option GoErr) (t : Nat)
    (hret : (svr.startRun env s).outcome = .ret e t) :
    (svr.startRun env s).post = { svr with started := false } := by
  have hsel : (selectOutcome svr env s).1 = .ret e t := by
    rw [← (startRun_notStarted svr env s h).1]; exact hret
  unfold Runner.startRun
  rw [if_neg (by rw [h]; exact Bool.false_ne_true)]
  show (match (selectOutcome svr env s).1 with
        | .hang => { svr with started := true }
        | .ret _ _ => { svr with started := false }) =
      { svr with started := false }
  rw [hsel]

/-- Claim C1: the spec and the repository's own test
(`Test_Runner_FailedStartup`, spec property P2 / Scenario B) require that
with exactly one registered plugin whose start fails immediately with F,
`Start` returns F unchanged.  The code does return the reported error
value unchanged — third and fourth conjuncts, under the schedule where
the runner is already blocked at its `select` when the worker reports —
but `pluginErrCh` is unbuffered, so a valid schedule also exists (first
and second conjuncts) in which the worker's non-blocking send executes
before the runner reaches its receive: the error is silently dropped,
the context is never cancelled, and `Start` blocks forever instead of
returning F, contradicting the claim, the test and the code's own
comment that only a "full" channel is skipped. -/
theorem single_failing_plugin_report_race :
    validSchedule c1Runner.plugins
      { breakAt := none, errReported := none
      , selectPicksErr := false, drainTieNil := false } = true ∧
    (c1Runner.startRun
      { parentCancel := none, signalArrival := none, shutdownCall := none }
      { breakAt := none, errReported := none
      , selectPicksErr := false, drainTieNil := false }).outcome = .hang ∧
    validSchedule c1Runner.plugins
      { breakAt := none, errReported := some 0
      , selectPicksErr := false, drainTieNil := false } = true ∧
    (c1Runner.startRun
      { parentCancel := none, signalArrival := none, shutdownCall := none }
      { breakAt := none, errReported := some 0
      , selectPicksErr := false, drainTieNil := false }).outcome =
      .ret (some (.custom "failed to start")) 0 := by
  decide

/-- Claim C2: the spec requires `Shutdown` to be safe to call in any state
without corrupting the runner or aborting the process, in particular a
second time.  `Shutdown` is `close(svr.shutdown)`, and Go's `close` of an
already-closed channel panics, aborting the process: a first call succeeds
and a second call on the resulting runner panics. -/
theorem shutdown_twice_panics :
    (NewRunner []).Shutdown.bind Runner.Shutdown =
      .error .closeOfClosedChannel := rfl

/-- Claim C3 counterexample: with two registered plugins, the first
failing immediately, there is a valid schedule (the failing worker's
`plugErr` write is visible when the launch loop reaches index 1, so the
loop breaks) under which plugin 0's start is invoked once and plugin 1's
start is never invoked — not one worker per registered plugin. -/
theorem launch_loop_break_skips_plugin :
    validSchedule c3Runner.plugins c3BreakSched = true ∧
    (c3Runner.startRun
      { parentCancel := none, signalArrival := none, shutdownCall := none }
      c3BreakSched).startCalls = [1, 0] ∧
    (c3Runner.startRun
      { parentCancel := none, signalArrival := none, shutdownCall := none }
      c3BreakSched).startCalls ≠
      List.replicate c3Runner.plugins.length 1 := by
  decide

/-- Claim C3 (amended): one worker is launched per registered plugin, each
invoking that plugin's start exactly once, unless the launch loop observes
an already-launched worker's failure, in which case the remaining plugins
are never started.  When no plugin fails immediately, every registered
plugin's start is invoked exactly once; in general each plugin's start is
invoked exactly once or not at all, and it is skipped only when an
earlier-registered plugin fails immediately. -/
theorem one_worker_per_launched_plugin (svr : Runner) (env : StartEnv)
    (s : Schedule)
    (hs : svr.started = false)
    (hv : validSchedule svr.plugins s = true) :
    ((noFailures svr.plugins = true) →
      (svr.startRun env s).startCalls =
        List.replicate svr.plugins.length 1) ∧
    (∀ i, i < svr.plugins.length →
      ((svr.startRun env s).startCalls[i]? = some 1 ∨
       ((svr.startRun env s).startCalls[i]? = some 0 ∧
        ∃ j, j < i ∧ failsAt svr.plugins j = true))) := by
  obtain ⟨_, _, hcalls⟩ := startRun_notStarted svr env s hs
  constructor
  · intro hnf
    obtain ⟨hbreak, _⟩ := validSchedule_of_noFailures svr.plugins s hv hnf
    rw [hcalls]
    have hcut : cutIndex svr.plugins.length s = svr.plugins.length := by
      unfold cutIndex; rw [hbreak]
    rw [hcut]
    calc (List.range svr.plugins.length).map
          (fun i => if i < svr.plugins.length then 1 else 0)
        = (List.range svr.plugins.length).map (fun _ => 1) :=
          List.map_congr_left
            (by intro a ha; rw [if_pos (List.mem_range.mp ha)])
      _ = List.replicate svr.plugins.length 1 := by
          simp [List.map_const']
  · intro i hi
    rw [hcalls]
    have hget :
        ((List.range svr.plugins.length).map
          (fun i => if i < cutIndex svr.plugins.length s then 1 else 0))[i]? =
          some (if i < cutIndex svr.plugins.length s then 1 else 0) := by
      rw [List.getElem?_map, List.getElem?_range hi]
      rfl
    rw [hget]
    by_cases hcut : i < cutIndex svr.plugins.length s
    · left; rw [if_pos hcut]
    · right
      refine ⟨by rw [if_neg hcut], ?_⟩
      cases hbr : s.breakAt with
      | none =>
          exfalso
          apply hcut
          unfold cutIndex
          rw [hbr]
          exact hi
      | some k =>
          have hcut2 : cutIndex svr.plugins.length s = k := by
            unfold cutIndex; rw [hbr]
          have hki : k ≤ i := by
            rw [hcut2] at hcut; omega
          unfold validSchedule at hv
          rw [Bool.and_eq_true] at hv
          obtain ⟨h1, _⟩ := hv
          rw [hbr] at h1
          simp only [Bool.and_eq_true, decide_eq_true_eq] at h1
          obtain ⟨_, hany⟩ := h1
          rw [List.any_eq_true] at hany
          obtain ⟨j, hjmem, hfj⟩ := hany
          exact ⟨j, lt_of_lt_of_le (List.mem_range.mp hjmem) hki, hfj⟩

theorem one_worker_per_launched_plugin_witness :
    (((NewRunner []).AddPlugin [.stopOnCancel 0]).startRun
      { parentCancel := some 0, signalArrival := none, shutdownCall := none }
      { breakAt := none, errReported := none
      , selectPicksErr := false, drainTieNil := false }).startCalls =
      List.replicate 1 1 :=
  (one_worker_per_launched_plugin _ _ _ rfl (by decide)).1 (by decide)

/-- Claim C4: for any number of registered plugins that all return nil
within the grace timeout of cancellation, once the child scope is
cancelled at time `c`, `Start` returns nil no later than `c` plus the
grace timeout; with zero plugins this holds of an already-cancelled scope
(draining zero workers completes immediately). -/
theorem cooperative_plugins_drain_nil (svr : Runner) (env : StartEnv)
    (s : Schedule) (c : Nat)
    (hs : svr.started = false)
    (hv : validSchedule svr.plugins s = true)
    (hc : childCancelTime svr env = some c)
    (hT : 0 < svr.opts.timeout)
    (hp : ∀ b ∈ svr.plugins,
      ∃ d, b = PluginBehavior.stopOnCancel d ∧ d < svr.opts.timeout) :
    ∃ t, (svr.startRun env s).outcome = .ret none t ∧
      t ≤ c + svr.opts.timeout := by
  have hnf : noFailures svr.plugins = true := by
    unfold noFailures
    rw [List.all_eq_true]
    intro b hb
    obtain ⟨d, hbd, _⟩ := hp b hb
    subst hbd; rfl
  obtain ⟨hbreak, herr⟩ := validSchedule_of_noFailures svr.plugins s hv hnf
  obtain ⟨hout, _, _⟩ := startRun_notStarted svr env s hs
  rw [hout, selectOutcome_drain svr env s c hc herr]
  have hwg : wgCloseTime svr env s = allFinishTime (some c) svr.plugins := by
    simp [wgCloseTime, hbreak, hc]
  obtain ⟨m, hm, hmlt⟩ :=
    allFinishTime_stopOnCancel_lt c svr.opts.timeout svr.plugins hT hp
  refine ⟨max c m, ?_, ?_⟩
  · show drainResult svr.opts.timeout c (wgCloseTime svr env s)
        s.drainTieNil = .ret none (max c m)
    rw [hwg, hm]
    exact drainResult_all_done _ _ _ _ hmlt
  · exact Nat.max_le.mpr ⟨Nat.le_add_right c _, Nat.le_of_lt hmlt⟩

theorem cooperative_plugins_drain_nil_witness :
    ∃ t, ((NewRunner []).startRun
      { parentCancel := some 0, signalArrival := none, shutdownCall := none }
      { breakAt := none, errReported := none
      , selectPicksErr := false, drainTieNil := false }).outcome =
        .ret none t ∧ t ≤ 0 + (NewRunner []).opts.timeout :=
  cooperative_plugins_drain_nil (NewRunner [])
    { parentCancel := some 0, signalArrival := none, shutdownCall := none }
    { breakAt := none, errReported := none
    , selectPicksErr := false, drainTieNil := false } 0
    rfl (by decide) (by decide) (by decide)
    (by intro b hb; cases hb)

/-- Claim C5 counterexample: the drain-timeout branch does not return a
failure kind distinct from a plugin failure.  A run of a never-returning
plugin that exits via drain timeout (second and third conjuncts) returns
exactly the same error value, `context.DeadlineExceeded`, as a run whose
single plugin fails immediately with that error (fifth and sixth
conjuncts): by the returned value the two are indistinguishable. -/
theorem drain_timeout_not_distinct_kind :
    validSchedule c5TimeoutRunner.plugins
      { breakAt := none, errReported := none
      , selectPicksErr := false, drainTieNil := false } = true ∧
    (c5TimeoutRunner.startRun
      { parentCancel := some 0, signalArrival := none, shutdownCall := none }
      { breakAt := none, errReported := none
      , selectPicksErr := false, drainTieNil := false }).drained = true ∧
    (c5TimeoutRunner.startRun
      { parentCancel := some 0, signalArrival := none, shutdownCall := none }
      { breakAt := none, errReported := none
      , selectPicksErr := false, drainTieNil := false }).outcome =
      .ret (some .deadlineExceeded) 3 ∧
    validSchedule deadlineFailRunner.plugins
      { breakAt := none, errReported := some 0
      , selectPicksErr := false, drainTieNil := false } = true ∧
    (deadlineFailRunner.startRun
      { parentCancel := none, signalArrival := none, shutdownCall := none }
      { breakAt := none, errReported := some 0
      , selectPicksErr := false, drainTieNil := false }).drained = false ∧
    (deadlineFailRunner.startRun
      { parentCancel := none, signalArrival := none, shutdownCall := none }
      { breakAt := none, errReported := some 0
      , selectPicksErr := false, drainTieNil := false }).outcome =
      .ret (some .deadlineExceeded) 0 := by
  decide

/-- Claim C5 (amended): when the scope is cancelled and the run returns
via the drain branch with a non-nil error, that error is the standard
`context.DeadlineExceeded` value — not a dedicated drain-timeout kind —
and the return happens exactly the configured timeout after draining
begins (so no earlier than the timeout), with no internal retry: the
returned value can therefore coincide with a plugin failure carrying the
same error. -/
theorem drain_timeout_standard_error (svr : Runner) (env : StartEnv)
    (s : Schedule) (e : GoErr) (t : Nat)
    (hd : (svr.startRun env s).drained = true)
    (he : (svr.startRun env s).outcome = .ret (some e) t) :
    e = .deadlineExceeded ∧
    ∃ c, childCancelTime svr env = some c ∧ t = c + svr.opts.timeout := by
  obtain ⟨hs, c, hc, hout⟩ := startRun_drained_inv svr env s hd
  rw [hout] at he
  obtain ⟨he1, he2⟩ := drainResult_some_err _ _ _ _ _ _ he
  exact ⟨he1, c, hc, he2⟩

theorem drain_timeout_standard_error_witness :
    GoErr.deadlineExceeded = GoErr.deadlineExceeded ∧
    ∃ c, childCancelTime c5TimeoutRunner
      { parentCancel := some 0, signalArrival := none
      , shutdownCall := none } = some c ∧
      3 = c + c5TimeoutRunner.opts.timeout :=
  drain_timeout_standard_error c5TimeoutRunner
    { parentCancel := some 0, signalArrival := none, shutdownCall := none }
    { breakAt := none, errReported := none
    , selectPicksErr := false, drainTieNil := false }
    .deadlineExceeded 3 (by decide) (by decide)

/-- Claim C6: a `Start` call on a runner that is already Running returns
`ErrRunnerAlreadyStarted` and launches no workers (first conjunct); and
every run that passed the guard and returns resets the started flag to
false before returning, so a fresh `Start` can be attempted (second
conjunct). -/
theorem start_guard_and_flag_reset (svr : Runner) (env : StartEnv)
    (s : Schedule) :
    (svr.started = true →
      (svr.startRun env s).outcome = .ret (some .runnerAlreadyStarted) 0 ∧
      (svr.startRun env s).startCalls =
        List.replicate svr.plugins.length 0) ∧
    (svr.started = false → ∀ e t,
      (svr.startRun env s).outcome = .ret e t →
      (svr.startRun env s).post.started = false) := by
  constructor
  · intro h
    rw [startRun_guard svr env s h]
    exact ⟨rfl, rfl⟩
  · intro h e t hret
    rw [startRun_post_ret svr env s h e t hret]

theorem start_guard_and_flag_reset_witness :
    ({ NewRunner [] with started := true }.startRun
      { parentCancel := none, signalArrival := none, shutdownCall := none }
      { breakAt := none, errReported := none
      , selectPicksErr := false, drainTieNil := false }).outcome =
      .ret (some .runnerAlreadyStarted) 0 ∧
    ((NewRunner []).startRun
      { parentCancel := some 0, signalArrival := none, shutdownCall := none }
      { breakAt := none, errReported := none
      , selectPicksErr := false, drainTieNil := false }).post.started =
      false :=
  ⟨((start_guard_and_flag_reset _ _ _).1 rfl).1,
   (start_guard_and_flag_reset _ _ _).2 rfl none 0 (by decide)⟩

/-- Claim C7: `NewRunner` applies the supplied options in order, later
options overriding earlier ones for the same field (each field ends up
holding the last value an option wrote to it), and omitted fields retain
the defaults: signals interrupt + terminate, timeout 5 units, and a
discard diagnostic sink that emits nothing. -/
theorem newRunner_options_spec (opts : List RunnerOpt) :
    (NewRunner opts).opts.timeout = (lastSet timeoutOf opts).getD 5 ∧
    (NewRunner opts).opts.signals =
      (lastSet signalsOf opts).getD [.interrupt, .sigterm] ∧
    (NewRunner opts).opts.println =
      (lastSet printlnOf opts).getD noopPrintln ∧
    (∀ args, noopPrintln args = []) := by
  refine ⟨?_, ?_, ?_, fun _ => rfl⟩
  · exact foldl_apply_field runnerOpts.timeout timeoutOf
      (by intro r o; cases r <;> rfl) opts defaultRunnerOpts
  · exact foldl_apply_field runnerOpts.signals signalsOf
      (by intro r o; cases r <;> rfl) opts defaultRunnerOpts
  · exact foldl_apply_field runnerOpts.println printlnOf
      (by intro r o; cases r <;> rfl) opts defaultRunnerOpts

/-- Claim C8: every `Runner` satisfies the `Plugin` capability contract it
manages: its `Name` method returns the constant string "runner" whatever
the runner value, and its blocking `Start` of a cancellable scope
returning failure-or-nil is exactly a run of the runner whose parent
scope is the scope it was started with — so a runner can be registered
as a plugin of another runner. -/
theorem runner_satisfies_plugin_contract (svr : Runner) (env : StartEnv)
    (s : Schedule) :
    Runner.Name svr = "runner" ∧
    (Runner.asPlugin svr env s).Name = "runner" ∧
    ∀ ctx, (Runner.asPlugin svr env s).Start ctx =
      (svr.startRun { env with parentCancel := ctx } s).outcome :=
  ⟨rfl, rfl, fun _ => rfl⟩

/-- Claim C9: whenever `Start` returns via the drain-timeout branch with
an error, that error is exactly the standard `context.DeadlineExceeded`
value (first conjunct, for every runner, environment and schedule); and a
plugin failure whose error happens to be `context.DeadlineExceeded`
produces the very same returned value (second conjunct), so the two are
indistinguishable by value. -/
theorem drain_branch_error_value (svr : Runner) (env : StartEnv)
    (s : Schedule) (e : GoErr) (t : Nat)
    (hd : (svr.startRun env s).drained = true)
    (he : (svr.startRun env s).outcome = .ret (some e) t) :
    e = .deadlineExceeded ∧
    (deadlineFailRunner.startRun
      { parentCancel := none, signalArrival := none, shutdownCall := none }
      { breakAt := none, errReported := some 0
      , selectPicksErr := false, drainTieNil := false }).outcome =
      .ret (some .deadlineExceeded) 0 := by
  obtain ⟨hs, c, hc, hout⟩ := startRun_drained_inv svr env s hd
  rw [hout] at he
  exact ⟨(drainResult_some_err _ _ _ _ _ _ he).1, by decide⟩

theorem drain_branch_error_value_witness :
    GoErr.deadlineExceeded = GoErr.deadlineExceeded ∧
    (deadlineFailRunner.startRun
      { parentCancel := none, signalArrival := none, shutdownCall := none }
      { breakAt := none, errReported := some 0
      , selectPicksErr := false, drainTieNil := false }).outcome =
      .ret (some .deadlineExceeded) 0 :=
  drain_branch_error_value c9Runner
    { parentCancel := some 1, signalArrival := none, shutdownCall := none }
    { breakAt := none, errReported := none
    , selectPicksErr := false, drainTieNil := false }
    .deadlineExceeded 3 (by decide) (by decide)

/-- Claim C10: if `Shutdown` is called exactly once before `Start`
(`svr0.Shutdown = .ok svr1`), the shutdown channel created at
construction is already closed when `Start` launches its watcher, so with
no termination signal and no parent-scope cancellation the child scope is
observed cancelled immediately (time 0), and — the plugins not failing —
the run proceeds directly to the draining phase. -/
theorem shutdown_before_start_drains (svr0 svr1 : Runner) (env : StartEnv)
    (s : Schedule)
    (hsd : svr0.Shutdown = .ok svr1)
    (hst : svr1.started = false)
    (hnf : noFailures svr1.plugins = true)
    (hv : validSchedule svr1.plugins s = true)
    (hpar : env.parentCancel = none)
    (hsig : env.signalArrival = none) :
    childCancelTime svr1 env = some 0 ∧
    (svr1.startRun env s).drained = true := by
  have hclosed : svr1.shutdownClosed = true := by
    unfold Runner.Shutdown at hsd
    split_ifs at hsd with h
    injection hsd with h1
    rw [← h1]
  have hc : childCancelTime svr1 env = some 0 := by
    simp [childCancelTime, hclosed, hpar, hsig, optMin]
  refine ⟨hc, ?_⟩
  obtain ⟨_, herr⟩ := validSchedule_of_noFailures svr1.plugins s hv hnf
  obtain ⟨_, hdr, _⟩ := startRun_notStarted svr1 env s hst
  rw [hdr, selectOutcome_drain svr1 env s 0 hc herr]

theorem shutdown_before_start_drains_witness :
    childCancelTime { preShutdownRunner with shutdownClosed := true }
      { parentCancel := none, signalArrival := none, shutdownCall := none } =
      some 0 ∧
    ({ preShutdownRunner with shutdownClosed := true }.startRun
      { parentCancel := none, signalArrival := none, shutdownCall := none }
      { breakAt := none, errReported := none
      , selectPicksErr := false, drainTieNil := false }).drained = true :=
  shutdown_before_start_drains preShutdownRunner
    { preShutdownRunner with shutdownClosed := true }
    { parentCancel := none, signalArrival := none, shutdownCall := none }
    { breakAt := none, errReported := none
    , selectPicksErr := false, drainTieNil := false }
    rfl rfl (by decide) (by decide) rfl rfl
